import Mathlib

/-!
Shallow embedding of the `mini_lang` compiler back end:
`ir_generator.py` (AST → three-address IR), `optimizer.py` (IR → IR),
`code_gen.py` (IR → target instructions) and `interpreter.py` (the VM).

Python runtime values that flow through the pipeline are modelled by
`PyVal`: Python `int` as `intV`, Python `float` as `floatV` over `ℚ`
(the float literals and results exercised here are small decimals that
are exactly representable, so exact rational arithmetic coincides with
the CPython float results on every input used below), Python `str` as
`strV`, and Python `None` as `noneV`.  Python exceptions that can
escape the modelled code are the constructors of `PyErr`, and fallible
translations return `Except PyErr _`.
-/

inductive PyVal where
  | intV (n : Int)
  | floatV (q : ℚ)
  | strV (s : String)
  | noneV
deriving DecidableEq, Repr

inductive PyErr where
  | typeError
  | zeroDivisionError
  | keyError (k : String)
deriving DecidableEq, Repr

/-- Python `==` on the modelled values: numeric kinds compare by value
(`5 == 5.0` is true in Python), strings compare as strings, `None`
equals only `None`, and cross-kind comparisons are false. -/
def pyEq : PyVal → PyVal → Bool
  | .intV a, .intV b => a = b
  | .intV a, .floatV b => (a : ℚ) = b
  | .floatV a, .intV b => a = (b : ℚ)
  | .floatV a, .floatV b => a = b
  | .strV a, .strV b => a = b
  | .noneV, .noneV => true
  | _, _ => false

/-- Python `s * n` for a string: `n` copies of `s` (empty for `n ≤ 0`). -/
def strRepeat (s : String) (n : Int) : String :=
  String.join (List.replicate n.toNat s)

/-- Python `+`: int+int stays int, any float operand gives float,
str+str concatenates, everything else raises `TypeError`. -/
def pyAdd : PyVal → PyVal → Except PyErr PyVal
  | .intV a, .intV b => .ok (.intV (a + b))
  | .intV a, .floatV b => .ok (.floatV ((a : ℚ) + b))
  | .floatV a, .intV b => .ok (.floatV (a + (b : ℚ)))
  | .floatV a, .floatV b => .ok (.floatV (a + b))
  | .strV a, .strV b => .ok (.strV (a ++ b))
  | _, _ => .error .typeError

/-- Python `-` on numbers; anything else raises `TypeError`. -/
def pySub : PyVal → PyVal → Except PyErr PyVal
  | .intV a, .intV b => .ok (.intV (a - b))
  | .intV a, .floatV b => .ok (.floatV ((a : ℚ) - b))
  | .floatV a, .intV b => .ok (.floatV (a - (b : ℚ)))
  | .floatV a, .floatV b => .ok (.floatV (a - b))
  | _, _ => .error .typeError

/-- Python `*`: numeric products, plus string repetition by an int. -/
def pyMul : PyVal → PyVal → Except PyErr PyVal
  | .intV a, .intV b => .ok (.intV (a * b))
  | .intV a, .floatV b => .ok (.floatV ((a : ℚ) * b))
  | .floatV a, .intV b => .ok (.floatV (a * (b : ℚ)))
  | .floatV a, .floatV b => .ok (.floatV (a * b))
  | .strV s, .intV n => .ok (.strV (strRepeat s n))
  | .intV n, .strV s => .ok (.strV (strRepeat s n))
  | _, _ => .error .typeError

def pyToRat : PyVal → Option ℚ
  | .intV n => some (n : ℚ)
  | .floatV q => some q
  | _ => none

/-- Python `/` is true division: the result is always a float, even for
two ints, and a zero divisor raises `ZeroDivisionError`. -/
def pyDiv (a b : PyVal) : Except PyErr PyVal :=
  match pyToRat a, pyToRat b with
  | some x, some y => if y = 0 then .error .zeroDivisionError else .ok (.floatV (x / y))
  | _, _ => .error .typeError

/-- Python `<`: numeric kinds compare by value, strings
lexicographically, mixed string/number raises `TypeError`. -/
def pyLt : PyVal → PyVal → Except PyErr Bool
  | .intV a, .intV b => .ok (decide (a < b))
  | .intV a, .floatV b => .ok (decide ((a : ℚ) < b))
  | .floatV a, .intV b => .ok (decide (a < (b : ℚ)))
  | .floatV a, .floatV b => .ok (decide (a < b))
  | .strV a, .strV b => .ok (decide (a < b))
  | _, _ => .error .typeError

/-- One IR instruction, as built by `IRInstruction(op, *args)` in
`ir_generator.py`: an opcode string and an untyped operand tuple. -/
structure IRInstruction where
  op : String
  args : List PyVal
deriving DecidableEq, Repr

/-- Positional operand access `instruction.args[k]`.  Every instruction
handled in this development carries the operands its opcode needs, so
the out-of-range default (a Python `IndexError`) is never exercised. -/
def irArg (instruction : IRInstruction) (k : Nat) : PyVal :=
  instruction.args.getD k PyVal.noneV

/-- Lookup in an insertion-ordered association list, the model of a
Python dict keyed by `pyEq`-equality. -/
def assocFind (eqk : α → α → Bool) : List (α × β) → α → Option β
  | [], _ => none
  | (k, v) :: rest, key => if eqk k key then some v else assocFind eqk rest key

/-- Update-or-append on an insertion-ordered association list, the model
of `d[key] = val` on a Python dict (existing keys keep their slot). -/
def assocPut (eqk : α → α → Bool) : List (α × β) → α → β → List (α × β)
  | [], key, val => [(key, val)]
  | (k, v) :: rest, key, val =>
    if eqk k key then (k, val) :: rest else (k, v) :: assocPut eqk rest key val

/-- Leading-match test on character lists: the first list read in full
at the head of the second. -/
def charsLeadWith : List Char → List Char → Bool
  | [], _ => true
  | _ :: _, [] => false
  | a :: as, b :: bs => a = b && charsLeadWith as bs

/-- Python `str.startswith`: does `s` begin with the text `p`. -/
def strBegins (s p : String) : Bool :=
  charsLeadWith p.toList s.toList

/-- Python `str.startswith` applied to an operand; the source only ever
calls it on string label operands (anything else would raise). -/
def pyStartsWith (v : PyVal) (p : String) : Bool :=
  match v with
  | .strV s => strBegins s p
  | _ => false

/-! ### Optimizer (`optimizer.py`, class `IROptimizer`) -/

/-- Mutable state of one `IROptimizer` instance. -/
structure OptState where
  optimized : List IRInstruction
  variableValues : List (PyVal × PyVal)
  inFunction : Bool
  afterReturn : Bool
deriving Repr

/-- `IROptimizer.evaluate_operand`: a number is its own constant; any
other operand is looked up in the known-value table. -/
def evaluateOperand (s : OptState) (operand : PyVal) : Option PyVal :=
  match operand with
  | .intV _ => some operand
  | .floatV _ => some operand
  | _ => assocFind pyEq s.variableValues operand

/-- `IROptimizer.evaluate_operation`: dispatch Python arithmetic on the
opcode; an opcode outside the four returns `None`. -/
def evaluateOperation (op : String) (left right : PyVal) : Except PyErr (Option PyVal) :=
  if op = "+" then (pyAdd left right).map some
  else if op = "-" then (pySub left right).map some
  else if op = "*" then (pyMul left right).map some
  else if op = "/" then (pyDiv left right).map some
  else .ok none

/-- `IROptimizer.get_temp_variable`: the fresh name is derived from the
current length of the output list, not from the input instruction. -/
def getTempVariable (s : OptState) : PyVal :=
  .strV ("t" ++ toString s.optimized.length)

/-- Tail of `IROptimizer.optimize_instruction` reached when constant
folding does not fire: drop self-assignments, rewrite assignments whose
source has a recorded value, otherwise record the binding and append. -/
def optimizeTail (s : OptState) (instruction : IRInstruction) : Except PyErr OptState :=
  if instruction.op = "=" ∧ pyEq (irArg instruction 0) (irArg instruction 1) then .ok s
  else if instruction.op = "=" then
    match assocFind pyEq s.variableValues (irArg instruction 1) with
    | some known =>
        .ok { s with optimized := s.optimized ++ [IRInstruction.mk "=" [irArg instruction 0, known]] }
    | none =>
        .ok { s with
              variableValues := assocPut pyEq s.variableValues (irArg instruction 0) (irArg instruction 1),
              optimized := s.optimized ++ [instruction] }
  else .ok { s with optimized := s.optimized ++ [instruction] }

/-- `IROptimizer.optimize_instruction`.  Note two properties taken
directly from the source: the function-body bookkeeping keys on the
`func_`/`end_func_` label spellings, and the constant-folding probe
evaluates `args[0]` and `args[1]` — the destination and the left
operand of a three-address instruction — never `args[2]`. -/
def optimizeInstruction (s0 : OptState) (instruction : IRInstruction) : Except PyErr OptState :=
  let s1 :=
    if instruction.op = "label" ∧ pyStartsWith (irArg instruction 0) "func_" then
      { s0 with inFunction := true, afterReturn := false }
    else s0
  let s2 :=
    if instruction.op = "label" ∧ s1.inFunction ∧ pyStartsWith (irArg instruction 0) "end_func_" then
      { s1 with inFunction := false, afterReturn := false }
    else s1
  if s2.inFunction ∧ s2.afterReturn then .ok s2
  else if s2.inFunction ∧ instruction.op = "return" then
    .ok { s2 with afterReturn := true, optimized := s2.optimized ++ [instruction] }
  else if instruction.op ∈ (["+", "-", "*", "/"] : List String) then
    match evaluateOperand s2 (irArg instruction 0), evaluateOperand s2 (irArg instruction 1) with
    | some left, some right =>
        match evaluateOperation instruction.op left right with
        | .error e => .error e
        | .ok result =>
            let tempVar := getTempVariable s2
            let resultVal := match result with | some v => v | none => PyVal.noneV
            .ok { s2 with optimized := s2.optimized ++ [IRInstruction.mk "=" [tempVar, resultVal]] }
    | _, _ => optimizeTail s2 instruction
  else optimizeTail s2 instruction

def optimizeFrom (s : OptState) : List IRInstruction → Except PyErr OptState
  | [] => .ok s
  | instruction :: rest =>
    match optimizeInstruction s instruction with
    | .error e => .error e
    | .ok s1 => optimizeFrom s1 rest

/-- `IROptimizer.optimize` run on a fresh `IROptimizer()` instance (the
known-value table, as in the source constructor, starts empty). -/
def optimize (instructions : List IRInstruction) : Except PyErr (List IRInstruction) :=
  match optimizeFrom (OptState.mk [] [] false false) instructions with
  | .error e => .error e
  | .ok s => .ok s.optimized

/-! ### IR generator (`ir_generator.py`, class `IRGenerator`)

The modelled AST fragment covers the node shapes the generator visits
for straight-line code and control flow: programs, declarations,
assignments, `if`/`if-else`, `while`, `print`, binary-operator tuples,
numeric literals (the parser turns every numeric token into a Python
float) and the strings that carry identifiers and string literals.
Function definitions and calls are outside this fragment; the IR
opcodes they produce (`param`, `call`, `return`, function labels) are
still modelled downstream, where instruction lists are built directly.
-/

inductive Expr where
  | num (q : ℚ)
  | str (s : String)
  | binop (l : Expr) (op : String) (r : Expr)
deriving DecidableEq, Repr

inductive Stmt where
  | varDecl (ty ident : String) (value : Option Expr)
  | assign (ident : String) (value : Expr)
  | whileStmt (cond : Expr) (body : List Stmt)
  | ifStmt (cond : Expr) (body : List Stmt) (elseBody : Option (List Stmt))
  | printStmt (value : Expr)
deriving Repr

/-- Mutable state of one `IRGenerator` instance. -/
structure GenState where
  instructions : List IRInstruction
  tempCounter : Nat
  labelCounter : Nat
deriving DecidableEq, Repr

/-- Fixed-point rendering used by `visit_number` for non-integral
floats (`.6f`).  Rounding of the exact rational stands in for CPython
formatting of the underlying binary double; no claim input contains a
non-integral numeric literal, so this branch stays unexercised. -/
def formatFixed6 (q : ℚ) : String :=
  let n : Int := round (q * 1000000)
  let sign := if n < 0 then "-" else ""
  let m := n.natAbs
  let frac := toString (m % 1000000)
  let pad := String.mk (List.replicate (6 - frac.length) '0')
  sign ++ toString (m / 1000000) ++ "." ++ pad ++ frac

/-- `IRGenerator.visit_number`: an integral float prints as its integer
value, a non-integral one with six decimals. -/
def visitNumber (q : ℚ) : String :=
  if q.den = 1 then toString q.num else formatFixed6 q

/-- Expression part of `IRGenerator.visit`: literals and identifiers
return their operand text, a binary tuple lowers both sides post-order,
allocates a fresh temporary and emits one three-address instruction. -/
def visitExpr (g : GenState) : Expr → GenState × String
  | .num q => (g, visitNumber q)
  | .str s => (g, s)
  | .binop l op r =>
    let p1 := visitExpr g l
    let p2 := visitExpr p1.fst r
    let tempCounter := p2.fst.tempCounter + 1
    let temp := "t" ++ toString tempCounter
    ({ instructions :=
         p2.fst.instructions ++ [IRInstruction.mk op [.strV temp, .strV p1.snd, .strV p2.snd]],
       tempCounter := tempCounter,
       labelCounter := p2.fst.labelCounter }, temp)

mutual
/-- Statement part of `IRGenerator.visit`: one case per visitor method
(`visit_VariableDeclaration`, `visit_AssignStatement`,
`visit_WhileStatement`, `visit_IfStatement`, `visit_PrintStatement`). -/
def visitStmt (g : GenState) : Stmt → GenState
  | .varDecl ty ident value =>
    let p : GenState × PyVal :=
      match value with
      | none =>
        (g, if ty = "int" then .intV 0
            else if ty = "float" then .floatV 0
            else if ty = "bool" then .strV "false"
            else if ty = "str" then .strV "\"\""
            else .noneV)
      | some e =>
        let p1 := visitExpr g e
        (p1.fst, .strV p1.snd)
    let tempCounter := p.fst.tempCounter + 1
    let temp := "t" ++ toString tempCounter
    { p.fst with
      tempCounter := tempCounter,
      instructions := p.fst.instructions ++
        [IRInstruction.mk "=" [.strV temp, p.snd],
         IRInstruction.mk "=" [.strV ident, .strV temp]] }
  | .assign ident e =>
    let p1 := visitExpr g e
    { p1.fst with
      instructions := p1.fst.instructions ++ [IRInstruction.mk "=" [.strV ident, .strV p1.snd]] }
  | .whileStmt cond body =>
    let startLabel := "label_" ++ toString (g.labelCounter + 1)
    let endLabel := "label_" ++ toString (g.labelCounter + 2)
    let g1 := { g with
                labelCounter := g.labelCounter + 2,
                instructions := g.instructions ++ [IRInstruction.mk "label" [.strV startLabel]] }
    let p1 := visitExpr g1 cond
    let g2 := { p1.fst with
                instructions := p1.fst.instructions ++
                  [IRInstruction.mk "if" [.strV p1.snd, .strV "goto", .strV endLabel]] }
    let g3 := visitStmts g2 body
    { g3 with
      instructions := g3.instructions ++
        [IRInstruction.mk "goto" [.strV startLabel], IRInstruction.mk "label" [.strV endLabel]] }
  | .ifStmt cond body elseBody =>
    let elseLabel := "label_" ++ toString (g.labelCounter + 1)
    let endLabel := "label_" ++ toString (g.labelCounter + 2)
    let g0 := { g with labelCounter := g.labelCounter + 2 }
    let p1 := visitExpr g0 cond
    let g2 := { p1.fst with
                instructions := p1.fst.instructions ++
                  [IRInstruction.mk "if" [.strV p1.snd, .strV "goto", .strV elseLabel]] }
    let g3 := visitStmts g2 body
    let g4 := { g3 with
                instructions := g3.instructions ++ [IRInstruction.mk "goto" [.strV endLabel]] }
    let g5 :=
      match elseBody with
      | some b =>
        visitStmts
          { g4 with instructions := g4.instructions ++ [IRInstruction.mk "label" [.strV elseLabel]] } b
      | none => g4
    { g5 with instructions := g5.instructions ++ [IRInstruction.mk "label" [.strV endLabel]] }
  | .printStmt e =>
    let p1 := visitExpr g e
    { p1.fst with
      instructions := p1.fst.instructions ++ [IRInstruction.mk "print" [.strV p1.snd]] }

/-- `IRGenerator.visit_Program` / block iteration: visit each statement
in order, threading the generator state. -/
def visitStmts (g : GenState) : List Stmt → GenState
  | [] => g
  | s :: rest => visitStmts (visitStmt g s) rest
end

/-- `IRGenerator.generate` on a fresh `IRGenerator()` instance. -/
def generate (program : List Stmt) : List IRInstruction :=
  (visitStmts (GenState.mk [] 0 0) program).instructions

/-- Labels defined by `label` instructions of an IR sequence. -/
def definedLabels (instructions : List IRInstruction) : List PyVal :=
  instructions.filterMap
    (fun i => if i.op = "label" then some (irArg i 0) else none)

/-- Targets of `goto` and `if … goto` instructions of an IR sequence. -/
def jumpTargets (instructions : List IRInstruction) : List PyVal :=
  instructions.filterMap
    (fun i =>
      if i.op = "goto" then some (irArg i 0)
      else if i.op = "if" then some (irArg i 2)
      else none)

/-! ### Code generator (`code_gen.py`, class `CodeGenerator`) -/

/-- One generated target instruction.  The source emits each one as the
text `MNEMONIC arg[, arg]*` and the VM re-splits that text on the first
space and on comma-space; for every mnemonic/operand shape this code
generator produces, that round trip is the identity on the structured
form recorded here. -/
structure TargetInstr where
  mn : String
  args : List String
deriving DecidableEq, Repr

/-- Stringification applied by the f-string emission in `code_gen.py`
(Python `str`).  Integral floats never reach the code generator in the
inputs below, and non-integral ones occur in no claim, so the float
rendering only fixes a total function. -/
def pyArgStr (v : PyVal) : String :=
  match v with
  | .intV n => toString n
  | .floatV q => if q.den = 1 then toString q.num ++ ".0" else toString q.num ++ "/" ++ toString q.den
  | .strV s => s
  | .noneV => "None"

/-- Mutable state of one `CodeGenerator` instance.  The legacy fallback
branch only logs unknown operations; `warnings` records the logged
instructions, which the source then drop from the emitted code. -/
structure CodeGenState where
  code : List TargetInstr
  warnings : List IRInstruction
deriving DecidableEq, Repr

/-- `CodeGenerator.conditional_jump`, including the source's hardcoded
comparison immediates: `<`, `<=`, `>=` compare the condition operand
against the literal `20`, while `if`, `>`, `==` compare it against `0`;
`!=` has no branch and emits nothing. -/
def conditionalJump (condition condOp label : PyVal) : List TargetInstr :=
  if condOp = PyVal.strV "goto" then
    [TargetInstr.mk "JMP" [pyArgStr label]]
  else if condOp = PyVal.strV "if" then
    [TargetInstr.mk "CMP" [pyArgStr condition, "0"], TargetInstr.mk "JNE" [pyArgStr label]]
  else if condOp = PyVal.strV "<" then
    [TargetInstr.mk "CMP" [pyArgStr condition, "20"], TargetInstr.mk "JL" [pyArgStr label]]
  else if condOp = PyVal.strV ">" then
    [TargetInstr.mk "CMP" [pyArgStr condition, "0"], TargetInstr.mk "JG" [pyArgStr label]]
  else if condOp = PyVal.strV "==" then
    [TargetInstr.mk "CMP" [pyArgStr condition, "0"], TargetInstr.mk "JE" [pyArgStr label]]
  else if condOp = PyVal.strV "<=" then
    [TargetInstr.mk "CMP" [pyArgStr condition, "20"], TargetInstr.mk "JLE" [pyArgStr label]]
  else if condOp = PyVal.strV ">=" then
    [TargetInstr.mk "CMP" [pyArgStr condition, "20"], TargetInstr.mk "JGE" [pyArgStr label]]
  else []

/-- `CodeGenerator.process_instruction`: the elif chain in source
order.  Relational opcodes emit only a `CMP` of the two source operands
(`compare` drops the destination); opcodes with no branch — among them
`input` and `!=` — fall through to the warning branch and emit
nothing. -/
def processInstruction (g : CodeGenState) (instruction : IRInstruction) : CodeGenState :=
  let a := fun (k : Nat) => irArg instruction k
  let op := instruction.op
  if op = "=" then
    { g with code := g.code ++ [TargetInstr.mk "MOV" [pyArgStr (a 0), pyArgStr (a 1)]] }
  else if op = "+" then
    { g with code := g.code ++ [TargetInstr.mk "ADD" [pyArgStr (a 0), pyArgStr (a 1), pyArgStr (a 2)]] }
  else if op = "-" then
    { g with code := g.code ++ [TargetInstr.mk "SUB" [pyArgStr (a 0), pyArgStr (a 1), pyArgStr (a 2)]] }
  else if op = "*" then
    { g with code := g.code ++ [TargetInstr.mk "MUL" [pyArgStr (a 0), pyArgStr (a 1), pyArgStr (a 2)]] }
  else if op = "/" then
    { g with code := g.code ++ [TargetInstr.mk "DIV" [pyArgStr (a 0), pyArgStr (a 1), pyArgStr (a 2)]] }
  else if op ∈ (["<", ">", "<=", ">=", "=="] : List String) then
    { g with code := g.code ++ [TargetInstr.mk "CMP" [pyArgStr (a 1), pyArgStr (a 2)]] }
  else if op = "if" then
    { g with code := g.code ++ conditionalJump (a 0) (a 1) (a 2) }
  else if op = "goto" then
    { g with code := g.code ++ [TargetInstr.mk "JMP" [pyArgStr (a 0)]] }
  else if op = "label" then
    { g with code := g.code ++ [TargetInstr.mk "label" [pyArgStr (a 0)]] }
  else if op = "param" then
    { g with code := g.code ++ [TargetInstr.mk "PUSH" [pyArgStr (a 0)]] }
  else if op = "call" then
    { g with code := g.code ++ [TargetInstr.mk "CALL" [pyArgStr (a 0)]] }
  else if op = "return" then
    { g with code := g.code ++ [TargetInstr.mk "RETURN" []] }
  else if op = "print" then
    { g with code := g.code ++
        [TargetInstr.mk "PRINT" [String.intercalate " " (instruction.args.map pyArgStr)]] }
  else
    { g with warnings := g.warnings ++ [instruction] }

/-- `CodeGenerator.generate_target_code` on a fresh instance. -/
def generateTargetCode (instructions : List IRInstruction) : CodeGenState :=
  instructions.foldl processInstruction (CodeGenState.mk [] [])

/-! ### Virtual machine (`interpreter.py`, class `SimpleInterpreter`) -/

/-- Python `str.isdigit` on the ASCII operand texts this pipeline
produces: nonempty and all decimal digits. -/
def pyIsDigit (s : String) : Bool :=
  decide (s.length ≠ 0) && s.toList.all Char.isDigit

/-- Python `int(s)` for a digit string (the interpreter only calls it
after an `isdigit` check). -/
def digitsToInt (s : String) : Int :=
  Int.ofNat (s.toList.foldl (fun n c => n * 10 + (c.toNat - 48)) 0)

/-- Python `s.strip` of the double-quote character: drop every leading
and trailing quote. -/
def stripQuotes (s : String) : String :=
  let l := s.toList.dropWhile (fun c => c = '"')
  String.mk ((l.reverse.dropWhile (fun c => c = '"')).reverse)

/-- Mutable state of one `SimpleInterpreter` instance, plus the stream
of values written by `PRINT` (Python prints them to stdout). -/
structure InterpState where
  symbolTable : List (String × PyVal)
  labels : List (String × Nat)
  pc : Int
  lastCmp : Option Bool
  output : List PyVal
deriving Repr

/-- `SimpleInterpreter._get_value`: a pure digit string is an immediate
nonnegative integer; every other operand text is looked up as a
variable name and defaults to `0`. -/
def getValue (table : List (String × PyVal)) (operand : String) : PyVal :=
  if pyIsDigit operand then .intV (digitsToInt operand)
  else
    match assocFind (fun a b => a = b) table operand with
    | some v => v
    | none => .intV 0

/-- `SimpleInterpreter._preprocess_labels`: map each `label` line to
its instruction index (a later duplicate overwrites an earlier one). -/
def preprocessLabels (instructions : List TargetInstr) : List (String × Nat) :=
  instructions.enum.foldl
    (fun labels pair =>
      if strBegins pair.snd.mn "label" then
        assocPut (fun a b => a = b) labels (pair.snd.args.getD 0 "") pair.fst
      else labels)
    []

/-- Python truthiness of `not self.last_cmp`: `not None` is `True`. -/
def pyNotTruthy : Option Bool → Bool
  | none => true
  | some b => !b

/-- `SimpleInterpreter._execute_instruction`: the elif chain in source
order.  `MUL`, `DIV`, `PUSH`, `CALL` and `RETURN` have no branch and
fall through as no-ops; in the conditional-jump branch only `JGE` (on a
falsy last comparison) ever jumps; the `WHILE` branch is unreachable
because this code generator never emits a `WHILE` mnemonic, and is
modelled as the final fall-through. -/
def execInstruction (st : InterpState) (instr : TargetInstr) : Except PyErr InterpState :=
  let operation := instr.mn
  let args := instr.args
  let a := fun (k : Nat) => args.getD k ""
  if operation = "MOV" then
    if pyIsDigit (a 1) then
      .ok { st with symbolTable := assocPut (fun x y => x = y) st.symbolTable (a 0) (.intV (digitsToInt (a 1))) }
    else
      match assocFind (fun x y => x = y) st.symbolTable (a 1) with
      | some v => .ok { st with symbolTable := assocPut (fun x y => x = y) st.symbolTable (a 0) v }
      | none => .ok { st with symbolTable := assocPut (fun x y => x = y) st.symbolTable (a 0) (.intV 0) }
  else if operation = "ADD" then
    match pyAdd (getValue st.symbolTable (a 1)) (getValue st.symbolTable (a 2)) with
    | .ok v => .ok { st with symbolTable := assocPut (fun x y => x = y) st.symbolTable (a 0) v }
    | .error e => .error e
  else if operation = "SUB" then
    match pySub (getValue st.symbolTable (a 1)) (getValue st.symbolTable (a 2)) with
    | .ok v => .ok { st with symbolTable := assocPut (fun x y => x = y) st.symbolTable (a 0) v }
    | .error e => .error e
  else if operation = "CMP" then
    match pyLt (getValue st.symbolTable (a 0)) (getValue st.symbolTable (a 1)) with
    | .ok b => .ok { st with lastCmp := some b }
    | .error e => .error e
  else if operation = "JMP" then
    match assocFind (fun x y => x = y) st.labels (a 0) with
    | some idx => .ok { st with pc := (idx : Int) - 1 }
    | none => .error (.keyError (a 0))
  else if operation = "PRINT" then
    let value :=
      match assocFind (fun x y => x = y) st.symbolTable (a 0) with
      | some v => v
      | none => .strV (stripQuotes (String.intercalate " " args))
    .ok { st with output := st.output ++ [value] }
  else if strBegins operation "J" then
    if operation = "JMP" ∨ (operation = "JGE" ∧ pyNotTruthy st.lastCmp) then
      match assocFind (fun x y => x = y) st.labels (a 0) with
      | some idx => .ok { st with pc := (idx : Int) - 1 }
      | none => .error (.keyError (a 0))
    else .ok st
  else if strBegins operation "label" then .ok st
  else .ok st

/-- `SimpleInterpreter.execute`'s fetch loop, fuelled: fetch at `pc`,
execute, then unconditionally advance `pc` by one (a taken jump already
set `pc` to the target index minus one).  At each loop entry `pc` is
the successor of a valid index or `0`, hence nonnegative. -/
def executeLoop (prog : List TargetInstr) : Nat → InterpState → Except PyErr InterpState
  | 0, st => .ok st
  | Nat.succ fuel, st =>
    if st.pc < (prog.length : Int) then
      match prog.get? st.pc.toNat with
      | some instr =>
        match execInstruction st instr with
        | .ok st1 => executeLoop prog fuel { st1 with pc := st1.pc + 1 }
        | .error e => .error e
      | none => .ok st
    else .ok st

/-- A whole `SimpleInterpreter(instructions).execute()` run from the
initial state, bounded by `fuel` loop iterations. -/
def runProgram (prog : List TargetInstr) (fuel : Nat) : Except PyErr InterpState :=
  executeLoop prog fuel (InterpState.mk [] (preprocessLabels prog) 0 none [])

/-! ### Concrete programs and IR sequences examined by the claims -/

/-- AST of `int a = 5; int b = 10; int c = a + b; print(c);` (the
parser stores numeric literals as floats). -/
def c1Ast : List Stmt :=
  [Stmt.varDecl "int" "a" (some (Expr.num 5)),
   Stmt.varDecl "int" "b" (some (Expr.num 10)),
   Stmt.varDecl "int" "c" (some (Expr.binop (Expr.str "a") "+" (Expr.str "b"))),
   Stmt.printStmt (Expr.str "c")]

/-- IR sequence the claim expects from generation:
`t1=5; a=t1; t2=10; b=t2; t3=a+b; c=t3; print(c)`. -/
def c1ClaimedIR : List IRInstruction :=
  [IRInstruction.mk "=" [PyVal.strV "t1", PyVal.strV "5"],
   IRInstruction.mk "=" [PyVal.strV "a", PyVal.strV "t1"],
   IRInstruction.mk "=" [PyVal.strV "t2", PyVal.strV "10"],
   IRInstruction.mk "=" [PyVal.strV "b", PyVal.strV "t2"],
   IRInstruction.mk "+" [PyVal.strV "t3", PyVal.strV "a", PyVal.strV "b"],
   IRInstruction.mk "=" [PyVal.strV "c", PyVal.strV "t3"],
   IRInstruction.mk "print" [PyVal.strV "c"]]

/-- IR sequence the claim expects after optimization:
`a=5; b=10; c=a+b; print(c)`. -/
def c1ClaimedOptimizedIR : List IRInstruction :=
  [IRInstruction.mk "=" [PyVal.strV "a", PyVal.strV "5"],
   IRInstruction.mk "=" [PyVal.strV "b", PyVal.strV "10"],
   IRInstruction.mk "+" [PyVal.strV "c", PyVal.strV "a", PyVal.strV "b"],
   IRInstruction.mk "print" [PyVal.strV "c"]]

/-- IR sequence the generator actually produces for `c1Ast`: the
declaration initializer `a + b` gets its own temporary `t3` and the
declaration then routes it through a second temporary `t4`. -/
def c1ActualIR : List IRInstruction :=
  [IRInstruction.mk "=" [PyVal.strV "t1", PyVal.strV "5"],
   IRInstruction.mk "=" [PyVal.strV "a", PyVal.strV "t1"],
   IRInstruction.mk "=" [PyVal.strV "t2", PyVal.strV "10"],
   IRInstruction.mk "=" [PyVal.strV "b", PyVal.strV "t2"],
   IRInstruction.mk "+" [PyVal.strV "t3", PyVal.strV "a", PyVal.strV "b"],
   IRInstruction.mk "=" [PyVal.strV "t4", PyVal.strV "t3"],
   IRInstruction.mk "=" [PyVal.strV "c", PyVal.strV "t4"],
   IRInstruction.mk "print" [PyVal.strV "c"]]

/-- Optimizer output on `c1ActualIR`: copy propagation rewrites the
temp-sourced assignments, but the temporary loads stay. -/
def c1ActualOptimizedIR : List IRInstruction :=
  [IRInstruction.mk "=" [PyVal.strV "t1", PyVal.strV "5"],
   IRInstruction.mk "=" [PyVal.strV "a", PyVal.strV "5"],
   IRInstruction.mk "=" [PyVal.strV "t2", PyVal.strV "10"],
   IRInstruction.mk "=" [PyVal.strV "b", PyVal.strV "10"],
   IRInstruction.mk "+" [PyVal.strV "t3", PyVal.strV "a", PyVal.strV "b"],
   IRInstruction.mk "=" [PyVal.strV "t4", PyVal.strV "t3"],
   IRInstruction.mk "=" [PyVal.strV "c", PyVal.strV "t3"],
   IRInstruction.mk "print" [PyVal.strV "c"]]

/-- Final VM state of the compiled `c1Ast` run. -/
def c1FinalState : InterpState :=
  InterpState.mk
    [("t1", PyVal.intV 5), ("a", PyVal.intV 5), ("t2", PyVal.intV 10),
     ("b", PyVal.intV 10), ("t3", PyVal.intV 15), ("t4", PyVal.intV 15),
     ("c", PyVal.intV 15)]
    [] 8 none [PyVal.intV 15]

/-- Three-instruction IR sequence `a = 5; b = a; b = a + x` on which a
second optimization pass still changes the program. -/
def c2Program : List IRInstruction :=
  [IRInstruction.mk "=" [PyVal.strV "a", PyVal.strV "5"],
   IRInstruction.mk "=" [PyVal.strV "b", PyVal.strV "a"],
   IRInstruction.mk "+" [PyVal.strV "b", PyVal.strV "a", PyVal.strV "x"]]

/-- First optimization pass over `c2Program`: `b = a` is rewritten to
`b = 5`, but `b` is not recorded, so the `+` is not folded. -/
def c2OnePass : List IRInstruction :=
  [IRInstruction.mk "=" [PyVal.strV "a", PyVal.strV "5"],
   IRInstruction.mk "=" [PyVal.strV "b", PyVal.strV "5"],
   IRInstruction.mk "+" [PyVal.strV "b", PyVal.strV "a", PyVal.strV "x"]]

/-- Second optimization pass: now `b = 5` is recorded, the folding
probe of `args[0]`/`args[1]` finds the strings "5" and "5", Python `+`
concatenates them, and the instruction collapses to `t2 = "55"`. -/
def c2TwoPass : List IRInstruction :=
  [IRInstruction.mk "=" [PyVal.strV "a", PyVal.strV "5"],
   IRInstruction.mk "=" [PyVal.strV "b", PyVal.strV "5"],
   IRInstruction.mk "=" [PyVal.strV "t2", PyVal.strV "55"]]

/-- AST of `int c = 0; while (c < 20) { c = c + 1; } print(c);`. -/
def c3Ast : List Stmt :=
  [Stmt.varDecl "int" "c" (some (Expr.num 0)),
   Stmt.whileStmt (Expr.binop (Expr.str "c") "<" (Expr.num 20))
     [Stmt.assign "c" (Expr.binop (Expr.str "c") "+" (Expr.num 1))],
   Stmt.printStmt (Expr.str "c")]

/-- IR the generator produces for `c3Ast`. -/
def c3IR : List IRInstruction :=
  [IRInstruction.mk "=" [PyVal.strV "t1", PyVal.strV "0"],
   IRInstruction.mk "=" [PyVal.strV "c", PyVal.strV "t1"],
   IRInstruction.mk "label" [PyVal.strV "label_1"],
   IRInstruction.mk "<" [PyVal.strV "t2", PyVal.strV "c", PyVal.strV "20"],
   IRInstruction.mk "if" [PyVal.strV "t2", PyVal.strV "goto", PyVal.strV "label_2"],
   IRInstruction.mk "+" [PyVal.strV "t3", PyVal.strV "c", PyVal.strV "1"],
   IRInstruction.mk "=" [PyVal.strV "c", PyVal.strV "t3"],
   IRInstruction.mk "goto" [PyVal.strV "label_1"],
   IRInstruction.mk "label" [PyVal.strV "label_2"],
   IRInstruction.mk "print" [PyVal.strV "c"]]

/-- Optimizer output on `c3IR`. -/
def c3OptimizedIR : List IRInstruction :=
  [IRInstruction.mk "=" [PyVal.strV "t1", PyVal.strV "0"],
   IRInstruction.mk "=" [PyVal.strV "c", PyVal.strV "0"],
   IRInstruction.mk "label" [PyVal.strV "label_1"],
   IRInstruction.mk "<" [PyVal.strV "t2", PyVal.strV "c", PyVal.strV "20"],
   IRInstruction.mk "if" [PyVal.strV "t2", PyVal.strV "goto", PyVal.strV "label_2"],
   IRInstruction.mk "+" [PyVal.strV "t3", PyVal.strV "c", PyVal.strV "1"],
   IRInstruction.mk "=" [PyVal.strV "c", PyVal.strV "t3"],
   IRInstruction.mk "goto" [PyVal.strV "label_1"],
   IRInstruction.mk "label" [PyVal.strV "label_2"],
   IRInstruction.mk "print" [PyVal.strV "c"]]

/-- Target code generated for `c3OptimizedIR`: index 4 is an
unconditional `JMP` to the loop exit, produced by the `cond_op ==
"goto"` branch of `conditional_jump`, so the loop body at indices 5–7
is unreachable. -/
def c3Target : List TargetInstr :=
  [TargetInstr.mk "MOV" ["t1", "0"],
   TargetInstr.mk "MOV" ["c", "0"],
   TargetInstr.mk "label" ["label_1"],
   TargetInstr.mk "CMP" ["c", "20"],
   TargetInstr.mk "JMP" ["label_2"],
   TargetInstr.mk "ADD" ["t3", "c", "1"],
   TargetInstr.mk "MOV" ["c", "t3"],
   TargetInstr.mk "JMP" ["label_1"],
   TargetInstr.mk "label" ["label_2"],
   TargetInstr.mk "PRINT" ["c"]]

/-- Final VM state of the compiled `c3Ast` run: the comparison was
recorded as true, yet execution reached the exit label without ever
entering the body, so `c` is still `0`. -/
def c3FinalState : InterpState :=
  InterpState.mk
    [("t1", PyVal.intV 0), ("c", PyVal.intV 0)]
    [("label_1", 2), ("label_2", 8)]
    10 (some true) [PyVal.intV 0]

/-- AST of `if (x < 10) { print(x); }` with no else-block. -/
def c5Ast : List Stmt :=
  [Stmt.ifStmt (Expr.binop (Expr.str "x") "<" (Expr.num 10))
    [Stmt.printStmt (Expr.str "x")] none]

/-- IR the generator produces for `c5Ast`: the conditional jump targets
`label_1`, but `label label_1` is only emitted when an else-block
exists. -/
def c5IR : List IRInstruction :=
  [IRInstruction.mk "<" [PyVal.strV "t1", PyVal.strV "x", PyVal.strV "10"],
   IRInstruction.mk "if" [PyVal.strV "t1", PyVal.strV "goto", PyVal.strV "label_1"],
   IRInstruction.mk "print" [PyVal.strV "x"],
   IRInstruction.mk "goto" [PyVal.strV "label_2"],
   IRInstruction.mk "label" [PyVal.strV "label_2"]]

/-- One-instruction sequence `t4 = 4 / 0`: an arithmetic instruction
whose operands are both integer literals and whose divisor is the
literal zero. -/
def c6Program : List IRInstruction :=
  [IRInstruction.mk "/" [PyVal.strV "t4", PyVal.intV 4, PyVal.intV 0]]

/-- One-instruction sequence `t9 = 2 + 3`: both source operands are
integer literals. -/
def c7Program : List IRInstruction :=
  [IRInstruction.mk "+" [PyVal.strV "t9", PyVal.intV 2, PyVal.intV 3]]

/-! ### Claim theorems -/

/-- C1 (counterexample): on `int a=5; int b=10; int c=a+b; print(c);`
the generated IR is not the claimed seven-instruction sequence (a
second temporary `t4` is interposed for the declaration initializer),
the optimized IR is not the claimed `a=5; b=10; c=a+b; print(c)` (the
temporary loads survive), and the final store is not exactly
`{a:5, b:10, c:15}` (the temporaries remain in it). -/
theorem c1_claimed_sequences_refuted :
    generate c1Ast = c1ActualIR ∧
    c1ActualIR ≠ c1ClaimedIR ∧
    optimize c1ActualIR = Except.ok c1ActualOptimizedIR ∧
    c1ActualOptimizedIR ≠ c1ClaimedOptimizedIR ∧
    runProgram (generateTargetCode c1ActualOptimizedIR).code 10 = Except.ok c1FinalState ∧
    c1FinalState.symbolTable ≠
      [("a", PyVal.intV 5), ("b", PyVal.intV 10), ("c", PyVal.intV 15)] :=
  ⟨rfl, by decide, rfl, by decide, rfl, by decide⟩

/-- C1 (amended): the generated IR is
`t1=5; a=t1; t2=10; b=t2; t3=a+b; t4=t3; c=t4; print(c)`; optimization
yields `t1=5; a=5; t2=10; b=10; t3=a+b; t4=t3; c=t3; print(c)`; the
compiled program executes without warnings, prints `15`, terminates
(the program counter passes the last instruction), and its final store
maps `a` to 5, `b` to 10 and `c` to 15 alongside the temporaries. -/
theorem c1_pipeline_behaviour :
    generate c1Ast = c1ActualIR ∧
    optimize (generate c1Ast) = Except.ok c1ActualOptimizedIR ∧
    (generateTargetCode c1ActualOptimizedIR).warnings = [] ∧
    runProgram (generateTargetCode c1ActualOptimizedIR).code 10 = Except.ok c1FinalState ∧
    c1FinalState.output = [PyVal.intV 15] ∧
    assocFind (fun a b => a = b) c1FinalState.symbolTable "a" = some (PyVal.intV 5) ∧
    assocFind (fun a b => a = b) c1FinalState.symbolTable "b" = some (PyVal.intV 10) ∧
    assocFind (fun a b => a = b) c1FinalState.symbolTable "c" = some (PyVal.intV 15) ∧
    c1FinalState.pc = 8 ∧
    (generateTargetCode c1ActualOptimizedIR).code.length = 8 :=
  ⟨rfl, rfl, rfl, rfl, rfl, rfl, rfl, rfl, rfl, rfl⟩

/-- C2: the optimizer is not idempotent.  On `a = 5; b = a; b = a + x`
one pass produces `a = 5; b = 5; b = a + x`, and a second pass over
that output changes it again — the copy `b = 5` is only recorded on the
second pass, which then folds the `+` into `t2 = "55"` (a renamed
destination holding a string concatenation). -/
theorem c2_optimize_not_idempotent :
    optimize c2Program = Except.ok c2OnePass ∧
    optimize c2OnePass = Except.ok c2TwoPass ∧
    c2TwoPass ≠ c2OnePass :=
  ⟨rfl, rfl, by decide⟩

/-- C3: for `int c = 0; while (c < 20) { c = c + 1; } print(c);` the
compiled program records the first condition evaluation as true
(`lastCmp = some true` from `CMP c, 20` with `c = 0`), yet the `if`
instruction was compiled by the `cond_op == "goto"` branch into an
unconditional `JMP label_2`, so the body never executes: the run
terminates with `c = 0` and prints `0` instead of iterating 20 times
and printing `20`. -/
theorem c3_while_body_never_executes :
    generate c3Ast = c3IR ∧
    optimize c3IR = Except.ok c3OptimizedIR ∧
    (generateTargetCode c3OptimizedIR).code = c3Target ∧
    c3Target.get? 3 = some (TargetInstr.mk "CMP" ["c", "20"]) ∧
    c3Target.get? 4 = some (TargetInstr.mk "JMP" ["label_2"]) ∧
    runProgram c3Target 20 = Except.ok c3FinalState ∧
    c3FinalState.lastCmp = some true ∧
    c3FinalState.output = [PyVal.intV 0] ∧
    assocFind (fun a b => a = b) c3FinalState.symbolTable "c" = some (PyVal.intV 0) ∧
    c3FinalState.pc = 10 :=
  ⟨rfl, rfl, rfl, rfl, rfl, rfl, rfl, rfl, rfl, rfl⟩

/-- C4: the comparison branches of `conditional_jump` compare the
condition operand against hardcoded immediates — `20` for `<`, `<=`,
`>=` and `0` for `>`, `==` — for every condition and label, instead of
emitting `CMP a, b` over the two actual operands of the comparison. -/
theorem c4_comparison_uses_fixed_thresholds :
    (∀ cond lbl : String,
      processInstruction (CodeGenState.mk [] [])
          (IRInstruction.mk "if" [PyVal.strV cond, PyVal.strV "<", PyVal.strV lbl]) =
        CodeGenState.mk
          [TargetInstr.mk "CMP" [cond, "20"], TargetInstr.mk "JL" [lbl]] []) ∧
    conditionalJump (PyVal.strV "c") (PyVal.strV "<=") (PyVal.strV "L1") =
      [TargetInstr.mk "CMP" ["c", "20"], TargetInstr.mk "JLE" ["L1"]] ∧
    conditionalJump (PyVal.strV "c") (PyVal.strV ">=") (PyVal.strV "L1") =
      [TargetInstr.mk "CMP" ["c", "20"], TargetInstr.mk "JGE" ["L1"]] ∧
    conditionalJump (PyVal.strV "c") (PyVal.strV ">") (PyVal.strV "L1") =
      [TargetInstr.mk "CMP" ["c", "0"], TargetInstr.mk "JG" ["L1"]] ∧
    conditionalJump (PyVal.strV "c") (PyVal.strV "==") (PyVal.strV "L1") =
      [TargetInstr.mk "CMP" ["c", "0"], TargetInstr.mk "JE" ["L1"]] :=
  ⟨fun _ _ => rfl, rfl, rfl, rfl, rfl⟩

/-- C5: for the else-less `if (x < 10) { print(x); }` the generated IR
contains a conditional jump to `label_1`, but the only label defined in
the sequence is `label_2`: the jump target is undefined because
`visit_IfStatement` emits `label(else_label)` only when an else-block
exists while always emitting the jump to it. -/
theorem c5_if_without_else_jumps_to_undefined_label :
    generate c5Ast = c5IR ∧
    IRInstruction.mk "if" [PyVal.strV "t1", PyVal.strV "goto", PyVal.strV "label_1"] ∈
      generate c5Ast ∧
    jumpTargets (generate c5Ast) = [PyVal.strV "label_1", PyVal.strV "label_2"] ∧
    definedLabels (generate c5Ast) = [PyVal.strV "label_2"] ∧
    PyVal.strV "label_1" ∉ definedLabels (generate c5Ast) :=
  ⟨rfl, by decide, rfl, rfl, by decide⟩

/-- C6: optimizing `t4 = 4 / 0` — both operands integer literals, the
divisor the literal zero — succeeds and returns the instruction
unchanged, raising no error at all: the folding probe evaluates
`args[0]` (the destination `t4`, unknown) and `args[1]`, never the
divisor `args[2]`, even though direct evaluation of `4 / 0` would
raise the division-by-zero error. -/
theorem c6_zero_divisor_neither_folded_nor_error :
    optimize c6Program = Except.ok c6Program ∧
    evaluateOperation "/" (PyVal.intV 4) (PyVal.intV 0) = Except.error PyErr.zeroDivisionError ∧
    irArg (IRInstruction.mk "/" [PyVal.strV "t4", PyVal.intV 4, PyVal.intV 0]) 2 =
      PyVal.intV 0 :=
  ⟨rfl, rfl, rfl⟩

/-- C7: optimizing `t9 = 2 + 3` — both source operands integer
literals whose direct evaluation is `5` — leaves the instruction
unchanged instead of replacing it with an assignment of `5`: the
folding condition probes the destination operand `t9` (which has no
recorded value) rather than the pair of source operands. -/
theorem c7_literal_pair_never_folded :
    optimize c7Program = Except.ok c7Program ∧
    evaluateOperation "+" (PyVal.intV 2) (PyVal.intV 3) = Except.ok (some (PyVal.intV 5)) ∧
    evaluateOperand (OptState.mk [] [] false false) (PyVal.intV 2) = some (PyVal.intV 2) ∧
    evaluateOperand (OptState.mk [] [] false false) (PyVal.intV 3) = some (PyVal.intV 3) ∧
    evaluateOperand (OptState.mk [] [] false false) (PyVal.strV "t9") = none :=
  ⟨rfl, rfl, rfl, rfl, rfl⟩

/-- C8: the code generator is not total over the closed IR opcode set
and does not fail on unsupported opcodes: `input` and `!=` (both legal
IR opcodes) reach the fall-through branch, which records a warning and
emits nothing, and code generation continues with the following
instructions. -/
theorem c8_unsupported_opcode_logged_and_skipped :
    processInstruction (CodeGenState.mk [] []) (IRInstruction.mk "input" [PyVal.strV "b"]) =
      CodeGenState.mk [] [IRInstruction.mk "input" [PyVal.strV "b"]] ∧
    processInstruction (CodeGenState.mk [] [])
        (IRInstruction.mk "!=" [PyVal.strV "t1", PyVal.strV "a", PyVal.strV "b"]) =
      CodeGenState.mk [] [IRInstruction.mk "!=" [PyVal.strV "t1", PyVal.strV "a", PyVal.strV "b"]] ∧
    generateTargetCode
        [IRInstruction.mk "input" [PyVal.strV "b"], IRInstruction.mk "print" [PyVal.strV "b"]] =
      CodeGenState.mk [TargetInstr.mk "PRINT" ["b"]] [IRInstruction.mk "input" [PyVal.strV "b"]] :=
  ⟨rfl, rfl, rfl⟩

/-- C9: a VM read of an unset name yields the integer `0` whatever the
variable's declared type was — the VM receives no type information, so
names declared `str`, `float` or `bool` also read as `intV 0`, which is
not the typed defaults `""` or `0.0`; a `MOV` from an unset source
likewise stores `intV 0`. -/
theorem c9_unset_variable_reads_are_universal_int_zero :
    getValue [] "s" = PyVal.intV 0 ∧
    getValue [] "y" = PyVal.intV 0 ∧
    getValue [] "flag" = PyVal.intV 0 ∧
    getValue [] "count" = PyVal.intV 0 ∧
    PyVal.intV 0 ≠ PyVal.strV "" ∧
    PyVal.intV 0 ≠ PyVal.floatV 0 ∧
    execInstruction (InterpState.mk [] [] 0 none []) (TargetInstr.mk "MOV" ["x", "s"]) =
      Except.ok (InterpState.mk [("x", PyVal.intV 0)] [] 0 none []) :=
  ⟨rfl, rfl, rfl, rfl, by decide, by decide, rfl⟩

/-- C10: an operand is an immediate exactly when its text is a
nonempty string of decimal digits, in which case its integer value is
returned; any other operand text — `3.14`, `-5`, `false`, `""` — is
looked up as a variable name and evaluates to `0` when unset. -/
theorem c10_operand_immediate_iff_digits :
    (∀ (table : List (String × PyVal)) (s : String),
        pyIsDigit s = true → getValue table s = PyVal.intV (digitsToInt s)) ∧
    (∀ (table : List (String × PyVal)) (s : String),
        pyIsDigit s = false →
        assocFind (fun a b => a = b) table s = none →
        getValue table s = PyVal.intV 0) ∧
    pyIsDigit "3.14" = false ∧ getValue [] "3.14" = PyVal.intV 0 ∧
    pyIsDigit "-5" = false ∧ getValue [] "-5" = PyVal.intV 0 ∧
    pyIsDigit "false" = false ∧ getValue [] "false" = PyVal.intV 0 ∧
    pyIsDigit "\"\"" = false ∧ getValue [] "\"\"" = PyVal.intV 0 ∧
    pyIsDigit "42" = true ∧ getValue [] "42" = PyVal.intV 42 := by
  refine ⟨?_, ?_, rfl, rfl, rfl, rfl, rfl, rfl, rfl, rfl, rfl, rfl⟩
  · intro table s h
    simp [getValue, h]
  · intro table s h h2
    simp [getValue, h, h2]

/-- C10 witness: the operand `xyz` is not a digit string, so on an
empty store `getValue` returns `0`, by the theorem applied at that
concrete input. -/
theorem c10_operand_immediate_iff_digits_witness :
    getValue [] "xyz" = PyVal.intV 0 :=
  c10_operand_immediate_iff_digits.2.1 [] "xyz" (by decide) rfl
